import Mathlib

/-!
# Shallow embedding of `src/AccessAPI_ML.py`

The repository is a single Python class, `AccessAPI_ML`, wrapping the
Mercado Livre REST API.  This file embeds its data model and methods as
executable Lean definitions and proves the specification's claims about
them.

Modelling conventions:

* Decoded JSON is the inductive `Json`.  JSON numbers are modelled as
  integers (no claim involves fractional values).
* Python `d[k]` subscripting is `Json.getKey`: a missing key on a dict
  raises `KeyError` (`Fault.keyError`), subscripting a non-dict with a
  string key raises `TypeError` (`Fault.typeError`).
* The external HTTP server is a function `Backend : HttpRequest →
  HttpResponse`; the response carries the status code and the decoded
  body.  (A body that fails to decode, or a network exception, would
  propagate as a `requests` exception in Python; no claim depends on
  those, and they are outside this model.)
* The class instance is the structure `AccessAPI_ML`.  The Python source
  never assigns to `self` outside `__init__`, so methods are pure
  functions of an immutable instance.
* `while True:` loops are embedded with an explicit fuel argument; a run
  that exhausts its fuel yields `LoopResult.timeout`, so divergence of
  the source loop is "`timeout` for every fuel".  Each loop run also
  records the trace of HTTP requests it issued, so that claims about
  outbound requests (headers, the `offset` parameter) are statable.
-/

/-- Decoded JSON values (`response.json()` in the source). -/
inductive Json where
  | null
  | bool (b : Bool)
  | int (n : Int)
  | str (s : String)
  | arr (elems : List Json)
  | obj (fields : List (String × Json))
deriving Repr

/-- Faults raised by Python subscripting and arithmetic on JSON values. -/
inductive Fault where
  | keyError (key : String)
  | typeError
deriving DecidableEq, Repr

/-- First-match association lookup, the semantics of reading a Python dict
whose (unique) keys are listed in insertion order. -/
def alookup (k : String) : List (String × Json) → Option Json
  | [] => none
  | (k', v) :: rest => if k = k' then some v else alookup k rest

/-- Python `j[k]` for a string key `k`: a dict either yields the entry or
raises `KeyError`; every other value raises `TypeError`. -/
def Json.getKey : Json → String → Except Fault Json
  | .obj fields, k =>
    match alookup k fields with
    | some v => .ok v
    | none => .error (.keyError k)
  | _, _ => .error .typeError

/-- Python `resultados.extend(x)`: lists extend element-wise, strings
extend with their characters, dicts with their keys; non-iterables raise
`TypeError`. -/
def pyExtend (resultados : List Json) : Json → Except Fault (List Json)
  | .arr xs => .ok (resultados ++ xs)
  | .str s => .ok (resultados ++ s.data.map fun c => Json.str (String.singleton c))
  | .obj fields => .ok (resultados ++ fields.map fun f => Json.str f.1)
  | _ => .error .typeError

/-- Python `x[:10]`: slicing a string or a list keeps the first ten
items; every other value raises `TypeError`. -/
def pySlice10 : Json → Except Fault Json
  | .str s => .ok (.str (s.take 10))
  | .arr xs => .ok (.arr (xs.take 10))
  | _ => .error .typeError

/-- Python `offset >= total` where `offset` is an int and `total` came
from JSON: ints compare directly, bools compare as 0/1, anything else
raises `TypeError`. -/
def pyGeInt (offset : Int) : Json → Except Fault Bool
  | .int n => .ok (decide (n ≤ offset))
  | .bool b => .ok (decide ((if b then (1 : Int) else 0) ≤ offset))
  | _ => .error .typeError

/-- The client instance: the attributes `__init__` stores on `self`. -/
structure AccessAPI_ML where
  access_token : Json
  base_url : String
  user_agent : String
deriving Repr

/-- An outbound HTTP GET request as `requests.get` receives it. -/
structure HttpRequest where
  url : String
  headers : List (String × Json)
  params : List (String × Json)
deriving Repr

/-- An HTTP response: status code and decoded JSON body. -/
structure HttpResponse where
  status_code : Int
  json : Json
deriving Repr

/-- The external server, mapping each request to its response. -/
def Backend : Type := HttpRequest → HttpResponse

/-- `_get_access_token`, applied to the decoded JSON of the token
endpoint's response: `return token[..access_token..]`. -/
def _get_access_token (tokenResponse : Json) : Except Fault Json :=
  tokenResponse.getKey "access_token"

/-- `__init__`: stores the exchanged token, the base URL and the fixed
user agent on the instance.  A fault from the token lookup propagates. -/
def AccessAPI_ML.init (tokenResponse : Json) : Except Fault AccessAPI_ML :=
  match _get_access_token tokenResponse with
  | .error f => .error f
  | .ok tok =>
    .ok { access_token := tok
        , base_url := "https://api.mercadolibre.com/"
        , user_agent := "Mozilla/5.0 (Windows NT 10.0; Win64; x64) AppleWebKit/537.36 (KHTML, like Gecko) Chrome/117.0.0.0 Safari/537.36" }

/-- The request `_make_api_request` constructs: base URL concatenated
with the endpoint, `Authorization` and `User-Agent` headers, the given
parameter map. -/
def mkRequest (self : AccessAPI_ML) (endpoint : String) (params : List (String × Json)) : HttpRequest :=
  { url := self.base_url ++ endpoint
  , headers := [("Authorization", self.access_token), ("User-Agent", .str self.user_agent)]
  , params := params }

/-- The tail of `_make_api_request`: the decoded body when the status
code is exactly 200, the null sentinel (`none`) otherwise. -/
def apiResult (response : HttpResponse) : Option Json :=
  if response.status_code = 200 then some response.json else none

/-- `_make_api_request(endpoint, params)`, instrumented to also return
the request it issued. -/
def _make_api_request (backend : Backend) (self : AccessAPI_ML)
    (endpoint : String) (params : List (String × Json)) : HttpRequest × Option Json :=
  (mkRequest self endpoint params, apiResult (backend (mkRequest self endpoint params)))

/-- `get_vendas(seller_id)`. -/
def get_vendas (backend : Backend) (self : AccessAPI_ML) (seller_id : Json) :
    HttpRequest × Option Json :=
  _make_api_request backend self "orders/search"
    [("seller", seller_id), ("access_token", self.access_token)]

/-- `get_vendas_by_range(seller_id, dt_ini, dt_fim)`: the f-strings
append the start-of-day and end-of-day suffixes to the plain dates. -/
def get_vendas_by_range (backend : Backend) (self : AccessAPI_ML)
    (seller_id : Json) (dt_ini dt_fim : String) : HttpRequest × Option Json :=
  _make_api_request backend self "orders/search"
    [ ("seller", seller_id)
    , ("order.date_created.from", .str (dt_ini ++ "T00:00:00.000-00:00"))
    , ("order.date_created.to", .str (dt_fim ++ "T23:59:59.000-00:00"))
    , ("access_token", self.access_token) ]

/-- `get_produtos(palavra_chave)`. -/
def get_produtos (backend : Backend) (self : AccessAPI_ML) (palavra_chave : Json) :
    HttpRequest × Option Json :=
  _make_api_request backend self "sites/MLB/search" [("q", palavra_chave)]

/-- `get_items_by_seller(id_seller)`. -/
def get_items_by_seller (backend : Backend) (self : AccessAPI_ML) (id_seller : Json) :
    HttpRequest × Option Json :=
  _make_api_request backend self "sites/MLB/search"
    [("seller_id", id_seller), ("sort", .str "price_asc")]

/-- `get_all_categories()` (its `params` default is `None`, which sends
no query parameters, the same as the empty map). -/
def get_all_categories (backend : Backend) (self : AccessAPI_ML) :
    HttpRequest × Option Json :=
  _make_api_request backend self "sites/MLB/categories" []

/-- `get_items_by_category(categoria)`. -/
def get_items_by_category (backend : Backend) (self : AccessAPI_ML) (categoria : Json) :
    HttpRequest × Option Json :=
  _make_api_request backend self "sites/MLB/search" [("category", categoria)]

/-- `get_items_by_seller_category(seller_id, categoria)`. -/
def get_items_by_seller_category (backend : Backend) (self : AccessAPI_ML)
    (seller_id categoria : Json) : HttpRequest × Option Json :=
  _make_api_request backend self "sites/MLB/search"
    [("seller_id", seller_id), ("category", categoria)]

/-- `get_visits_by_items(id_produto, dias, data_final)`. -/
def get_visits_by_items (backend : Backend) (self : AccessAPI_ML)
    (id_produto : String) (dias data_final : Json) : HttpRequest × Option Json :=
  _make_api_request backend self ("items/" ++ id_produto ++ "/visits/time_window")
    [("last", dias), ("unit", .str "day"), ("ending", data_final)]

/-- `get_selled_items_by_seller(seller_id)`. -/
def get_selled_items_by_seller (backend : Backend) (self : AccessAPI_ML)
    (seller_id : Json) : HttpRequest × Option Json :=
  _make_api_request backend self "orders/search"
    [("seller", seller_id), ("order.status", .str "paid")]

/-- Python `dados[k]` where `dados` may be `None`: subscripting `None`
raises `TypeError`. -/
def pySubscript : Option Json → String → Except Fault Json
  | none, _ => .error .typeError
  | some j, k => j.getKey k

/-- `get_items_details(id_produto)`: requests `items/{id_produto}` and
returns the tuple
`(dados[..start_time..][:10], dados[..seller_id..], dados[..sold_quantity..])`,
evaluated left to right; any subscripting fault propagates unhandled. -/
def get_items_details (backend : Backend) (self : AccessAPI_ML) (id_produto : String) :
    HttpRequest × Except Fault (Json × Json × Json) :=
  let req := mkRequest self ("items/" ++ id_produto) []
  let dados := apiResult (backend req)
  (req, do
    let st ← pySubscript dados "start_time"
    let st10 ← pySlice10 st
    let sid ← pySubscript dados "seller_id"
    let sq ← pySubscript dados "sold_quantity"
    .ok (st10, sid, sq))

/-- Outcome of a fuel-bounded run of one of the two `while True:` loops:
a normal return, an unhandled fault, or fuel exhaustion (the loop is
still running).  Each outcome records the trace of requests issued. -/
inductive LoopResult where
  | ok (trace : List HttpRequest) (resultados : List Json)
  | fault (trace : List HttpRequest) (f : Fault)
  | timeout (trace : List HttpRequest)
deriving Repr

/-- The request trace of a loop run. -/
def LoopResult.trace : LoopResult → List HttpRequest
  | .ok t _ => t
  | .fault t _ => t
  | .timeout t => t

/-- The parameter map built in every iteration of `get_produtos_paginacao`:
the literal `offset` value is `0`, not the incremented variable. -/
def produtosParams (palavra_chave : Json) (limit : Int) : List (String × Json) :=
  [("q", palavra_chave), ("limit", .int limit), ("offset", .int 0)]

/-- The (constant) request `get_produtos_paginacao` issues each iteration. -/
def reqProdutos (self : AccessAPI_ML) (palavra_chave : Json) (limit : Int) : HttpRequest :=
  mkRequest self "sites/MLB/search" (produtosParams palavra_chave limit)

/-- The straight-line body shared by both pagination loops once a
successful response arrived, in the source's statement order:
`resultados.extend(response[..results..])`, then `offset += limit`, then
the comparison `offset >= response[..paging..][..total..]`.  Returns the
extended results and the comparison's value; any subscripting or
comparison fault propagates. -/
def pageStep (offset limit : Int) (resultados : List Json) (response : Json) :
    Except Fault (List Json × Bool) := do
  let results ← response.getKey "results"
  let extended ← pyExtend resultados results
  let paging ← response.getKey "paging"
  let total ← paging.getKey "total"
  let b ← pyGeInt (offset + limit) total
  .ok (extended, b)

/-- The `while True:` loop of `get_produtos_paginacao`, with explicit
fuel, loop state (`offset`, `resultados`) and request trace.  Each
iteration calls `self._make_api_request` (unfolded here to `apiResult`
of the backend's response to `reqProdutos`).  On a successful response
it runs `pageStep` and then breaks on BOTH branches of the comparison
(`if offset >= ...: break / else: break` in the source), so the
comparison's value is ignored; on a `None` response it falls through
and loops again (the `if response is not None:` has no `else`). -/
def produtosLoop (backend : Backend) (self : AccessAPI_ML)
    (palavra_chave : Json) (limit : Int) :
    Nat → Int → List Json → List HttpRequest → LoopResult
  | 0, _, _, trace => .timeout trace
  | fuel + 1, offset, resultados, trace =>
    match apiResult (backend (reqProdutos self palavra_chave limit)) with
    | some response =>
      match pageStep offset limit resultados response with
      | .error f => .fault (trace ++ [reqProdutos self palavra_chave limit]) f
      | .ok (extended, _) => .ok (trace ++ [reqProdutos self palavra_chave limit]) extended
    | none =>
      produtosLoop backend self palavra_chave limit fuel offset resultados
        (trace ++ [reqProdutos self palavra_chave limit])

/-- `get_produtos_paginacao(palavra_chave, limit=50)`: runs the loop
from `offset = 0`, `resultados = []`. -/
def get_produtos_paginacao (backend : Backend) (self : AccessAPI_ML)
    (palavra_chave : Json) (limit : Int) (fuel : Nat) : LoopResult :=
  produtosLoop backend self palavra_chave limit fuel 0 [] []

/-- The parameter map built in every iteration of
`get_items_by_category_paging`: the literal `offset` value is `0`. -/
def categoryParams (categoria : Json) (limit : Int) : List (String × Json) :=
  [("category", categoria), ("limit", .int limit), ("offset", .int 0)]

/-- The (constant) request `get_items_by_category_paging` issues each
iteration. -/
def reqCategory (self : AccessAPI_ML) (categoria : Json) (limit : Int) : HttpRequest :=
  mkRequest self "sites/MLB/search" (categoryParams categoria limit)

/-- The `while True:` loop of `get_items_by_category_paging`.  On a
successful response it extends `resultados`, increments `offset` by
`limit`, breaks when `offset >= response[..paging..][..total..]` and
otherwise loops; on a `None` response it breaks, returning the
`resultados` accumulated so far. -/
def categoryLoop (backend : Backend) (self : AccessAPI_ML)
    (categoria : Json) (limit : Int) :
    Nat → Int → List Json → List HttpRequest → LoopResult
  | 0, _, _, trace => .timeout trace
  | fuel + 1, offset, resultados, trace =>
    match apiResult (backend (reqCategory self categoria limit)) with
    | some response =>
      match pageStep offset limit resultados response with
      | .error f => .fault (trace ++ [reqCategory self categoria limit]) f
      | .ok (extended, b) =>
        if b then .ok (trace ++ [reqCategory self categoria limit]) extended
        else
          categoryLoop backend self categoria limit fuel (offset + limit)
            extended (trace ++ [reqCategory self categoria limit])
    | none => .ok (trace ++ [reqCategory self categoria limit]) resultados

/-- `get_items_by_category_paging(categoria, limit=50)`: runs the loop
from `offset = 0`, `resultados = []`. -/
def get_items_by_category_paging (backend : Backend) (self : AccessAPI_ML)
    (categoria : Json) (limit : Int) (fuel : Nat) : LoopResult :=
  categoryLoop backend self categoria limit fuel 0 [] []

/-- Example client instance used by the concrete witnesses below. -/
def clientEx : AccessAPI_ML :=
  { access_token := .str "APP_USR-tok"
  , base_url := "https://api.mercadolibre.com/"
  , user_agent := "ua" }

/-- A server that answers every request with HTTP 404. -/
def backend404 : Backend := fun _ => { status_code := 404, json := .null }

/-- A one-item search page whose reported total is 1. -/
def pageBody : Json :=
  .obj [("results", .arr [.str "item1"]), ("paging", .obj [("total", .int 1)])]

/-- A server that answers every request with HTTP 200 and `pageBody`. -/
def backend200 : Backend := fun _ => { status_code := 200, json := pageBody }

/-- A two-item search page whose reported total is 5. -/
def pageBody5 : Json :=
  .obj [("results", .arr [.str "a", .str "b"]), ("paging", .obj [("total", .int 5)])]

/-- A server that answers every request with HTTP 200 and `pageBody5`. -/
def backend200tot5 : Backend := fun _ => { status_code := 200, json := pageBody5 }

/-- A two-item search page whose reported total is 500. -/
def pageBody500 : Json :=
  .obj [("results", .arr [.str "a", .str "b"]), ("paging", .obj [("total", .int 500)])]

/-- A server that answers every request with HTTP 200 and `pageBody500`. -/
def backend200tot500 : Backend := fun _ => { status_code := 200, json := pageBody500 }

/-- An item-detail body matching the spec's worked example. -/
def detailBody : Json :=
  .obj [ ("start_time", .str "2023-05-01T10:00:00Z")
       , ("seller_id", .int 42)
       , ("sold_quantity", .int 7) ]

/-- A server that answers every request with HTTP 200 and `detailBody`. -/
def backendDetail : Backend := fun _ => { status_code := 200, json := detailBody }

theorem apiResult_of_ne (response : HttpResponse) (h : response.status_code ≠ 200) :
    apiResult response = none := by
  simp [apiResult, h]

theorem apiResult_of_eq (response : HttpResponse) (h : response.status_code = 200) :
    apiResult response = some response.json := by
  simp [apiResult, h]

/-- With a backend that fails the produtos request, the produtos loop
re-issues the same request forever: at every fuel it is still running,
its trace extended by one copy of the request per iteration. -/
theorem produtosLoop_fail (backend : Backend) (self : AccessAPI_ML) (q : Json) (l : Int)
    (h : apiResult (backend (reqProdutos self q l)) = none) :
    ∀ (fuel : Nat) (offset : Int) (res : List Json) (trace : List HttpRequest),
      produtosLoop backend self q l fuel offset res trace
        = .timeout (trace ++ List.replicate fuel (reqProdutos self q l)) := by
  intro fuel
  induction fuel with
  | zero => intro offset res trace; simp [produtosLoop]
  | succ n ih =>
    intro offset res trace
    simp only [produtosLoop, h, ih]
    simp [List.replicate_succ]

/-- With a backend that fails the category request, the category loop
breaks in its first iteration, returning the accumulated results. -/
theorem categoryLoop_fail (backend : Backend) (self : AccessAPI_ML) (cat : Json) (l : Int)
    (h : apiResult (backend (reqCategory self cat l)) = none) :
    ∀ (fuel : Nat) (offset : Int) (res : List Json) (trace : List HttpRequest),
      categoryLoop backend self cat l (fuel + 1) offset res trace
        = .ok (trace ++ [reqCategory self cat l]) res := by
  intro fuel offset res trace
  simp only [categoryLoop, h]

/-- On a well-shaped page (a `results` list and an integer
`paging.total`), `pageStep` extends the results with the page and
reports whether the incremented offset has reached the total. -/
theorem pageStep_success (offset l t : Int) (res : List Json) (body pg : Json) (rs : List Json)
    (hres : body.getKey "results" = .ok (.arr rs))
    (hpg : body.getKey "paging" = .ok pg)
    (ht : pg.getKey "total" = .ok (.int t)) :
    pageStep offset l res body = .ok (res ++ rs, decide (t ≤ offset + l)) := by
  simp [pageStep, hres, hpg, ht, pyExtend, pyGeInt, bind, Except.bind]

/-- With a successful, well-shaped response to the produtos request, the
produtos loop breaks after exactly one iteration (both branches of its
final comparison are `break`), returning that page's results. -/
theorem produtosLoop_success (backend : Backend) (self : AccessAPI_ML) (q : Json) (l : Int)
    (body pg : Json) (rs : List Json) (t : Int)
    (hb : apiResult (backend (reqProdutos self q l)) = some body)
    (hres : body.getKey "results" = .ok (.arr rs))
    (hpg : body.getKey "paging" = .ok pg)
    (ht : pg.getKey "total" = .ok (.int t)) :
    ∀ (fuel : Nat) (offset : Int) (res : List Json) (trace : List HttpRequest),
      produtosLoop backend self q l (fuel + 1) offset res trace
        = .ok (trace ++ [reqProdutos self q l]) (res ++ rs) := by
  intro fuel offset res trace
  simp only [produtosLoop, hb, pageStep_success offset l t res body pg rs hres hpg ht]

/-- One successful, well-shaped iteration of the category loop: extend
the results, add `limit` to `offset`, break when the new offset reaches
the total and loop otherwise. -/
theorem categoryLoop_step (backend : Backend) (self : AccessAPI_ML) (cat : Json) (l : Int)
    (body pg : Json) (rs : List Json) (t : Int)
    (hb : apiResult (backend (reqCategory self cat l)) = some body)
    (hres : body.getKey "results" = .ok (.arr rs))
    (hpg : body.getKey "paging" = .ok pg)
    (ht : pg.getKey "total" = .ok (.int t)) :
    ∀ (fuel : Nat) (offset : Int) (res : List Json) (trace : List HttpRequest),
      categoryLoop backend self cat l (fuel + 1) offset res trace
        = if t ≤ offset + l then .ok (trace ++ [reqCategory self cat l]) (res ++ rs)
          else
            categoryLoop backend self cat l fuel (offset + l) (res ++ rs)
              (trace ++ [reqCategory self cat l]) := by
  intro fuel offset res trace
  simp only [categoryLoop, hb, pageStep_success offset l t res body pg rs hres hpg ht]
  by_cases hc : t ≤ offset + l
  · simp [hc]
  · simp [hc]

/-- Every trace the produtos loop can produce is the incoming trace
followed by some number of copies of the one request it knows. -/
theorem produtosLoop_trace_shape (backend : Backend) (self : AccessAPI_ML) (q : Json) (l : Int) :
    ∀ (fuel : Nat) (offset : Int) (res : List Json) (trace : List HttpRequest),
      ∃ m : Nat,
        (produtosLoop backend self q l fuel offset res trace).trace
          = trace ++ List.replicate m (reqProdutos self q l) := by
  intro fuel
  induction fuel with
  | zero =>
    intro offset res trace
    exact ⟨0, by simp [produtosLoop, LoopResult.trace]⟩
  | succ n ih =>
    intro offset res trace
    cases hb : apiResult (backend (reqProdutos self q l)) with
    | none =>
      obtain ⟨m, hm⟩ := ih offset res (trace ++ [reqProdutos self q l])
      refine ⟨m + 1, ?_⟩
      simp only [produtosLoop, hb]
      rw [hm]
      simp [List.replicate_succ]
    | some response =>
      cases hps : pageStep offset l res response with
      | error f =>
        exact ⟨1, by simp [produtosLoop, hb, hps, LoopResult.trace]⟩
      | ok p =>
        exact ⟨1, by simp [produtosLoop, hb, hps, LoopResult.trace]⟩

/-- Every trace the category loop can produce is the incoming trace
followed by some number of copies of the one request it knows. -/
theorem categoryLoop_trace_shape (backend : Backend) (self : AccessAPI_ML) (cat : Json) (l : Int) :
    ∀ (fuel : Nat) (offset : Int) (res : List Json) (trace : List HttpRequest),
      ∃ m : Nat,
        (categoryLoop backend self cat l fuel offset res trace).trace
          = trace ++ List.replicate m (reqCategory self cat l) := by
  intro fuel
  induction fuel with
  | zero =>
    intro offset res trace
    exact ⟨0, by simp [categoryLoop, LoopResult.trace]⟩
  | succ n ih =>
    intro offset res trace
    cases hb : apiResult (backend (reqCategory self cat l)) with
    | none => exact ⟨1, by simp [categoryLoop, hb, LoopResult.trace]⟩
    | some response =>
      cases hps : pageStep offset l res response with
      | error f =>
        exact ⟨1, by simp [categoryLoop, hb, hps, LoopResult.trace]⟩
      | ok p =>
        cases hb2 : p.2 with
        | true =>
          refine ⟨1, ?_⟩
          simp only [categoryLoop, hb, hps]
          obtain ⟨pl, pb⟩ := p
          simp only at hb2
          subst hb2
          simp [LoopResult.trace]
        | false =>
          obtain ⟨m, hm⟩ := ih (offset + l) p.1 (trace ++ [reqCategory self cat l])
          refine ⟨m + 1, ?_⟩
          simp only [categoryLoop, hb, hps]
          obtain ⟨pl, pb⟩ := p
          simp only at hb2 hm ⊢
          subst hb2
          simp only [Bool.false_eq_true, if_false]
          rw [hm]
          simp [List.replicate_succ]

/-- Ceiling division rounds up far enough: `L * ⌈T/L⌉ ≥ T`. -/
theorem ceil_mul_ge (T L : Nat) (hT : 0 < T) (hL : 0 < L) :
    T ≤ L * ((T + L - 1) / L) := by
  have h1 : T + L - 1 = (T - 1) + L := by omega
  rw [h1, Nat.add_div_right _ hL, Nat.mul_add, Nat.mul_one]
  have h2 : L * ((T - 1) / L) + (T - 1) % L = T - 1 := Nat.div_add_mod (T - 1) L
  have h3 : (T - 1) % L < L := Nat.mod_lt _ hL
  obtain ⟨A, hA⟩ : ∃ A, A = L * ((T - 1) / L) := ⟨_, rfl⟩
  obtain ⟨r, hr⟩ : ∃ r, r = (T - 1) % L := ⟨_, rfl⟩
  rw [← hA, ← hr] at h2
  rw [← hr] at h3
  rw [← hA]
  omega

/-- Ceiling division rounds up no further than needed: below `⌈T/L⌉`
iterations of size `L` stay short of `T`. -/
theorem ceil_mul_lt (T L j : Nat) (hT : 0 < T) (hL : 0 < L)
    (hj : j < (T + L - 1) / L) : L * j < T := by
  have h1 : T + L - 1 = (T - 1) + L := by omega
  rw [h1, Nat.add_div_right _ hL] at hj
  obtain ⟨q, hq⟩ : ∃ q, q = (T - 1) / L := ⟨_, rfl⟩
  rw [← hq] at hj
  have hj2 : j ≤ q := by omega
  have h4 : L * j ≤ L * q := Nat.mul_le_mul (le_refl L) hj2
  have h5 : L * q ≤ T - 1 := by
    rw [hq, Nat.mul_comm]
    exact Nat.div_mul_le_self (T - 1) L
  have h6 : L * j ≤ T - 1 := le_trans h4 h5
  obtain ⟨X, hX⟩ : ∃ X, X = L * j := ⟨_, rfl⟩
  rw [← hX] at h6 ⊢
  omega

/-- Under a constant successful well-shaped backend, the category loop
started anywhere runs for exactly `k` further iterations when `k` is
the least count whose accumulated offset reaches the total, appending
`k` copies of the request to its trace and `k` copies of the page to
its results. -/
theorem categoryLoop_run (backend : Backend) (self : AccessAPI_ML) (cat : Json)
    (l t : Int) (body pg : Json) (rs : List Json)
    (hb : apiResult (backend (reqCategory self cat l)) = some body)
    (hres : body.getKey "results" = .ok (.arr rs))
    (hpg : body.getKey "paging" = .ok pg)
    (ht : pg.getKey "total" = .ok (.int t)) :
    ∀ (k : Nat), 0 < k →
      ∀ (offset : Int) (res : List Json) (trace : List HttpRequest) (fuel : Nat),
        k ≤ fuel →
        t ≤ offset + l * (k : Int) →
        (∀ j : Nat, j < k → offset + l * (j : Int) < t) →
        categoryLoop backend self cat l fuel offset res trace
          = .ok (trace ++ List.replicate k (reqCategory self cat l))
              (res ++ (List.replicate k rs).flatten) := by
  intro k
  induction k with
  | zero => intro h; exact absurd h (lt_irrefl 0)
  | succ n ih =>
    intro _ offset res trace fuel hfuel hge hlt
    obtain ⟨f, rfl⟩ : ∃ f, fuel = f + 1 := ⟨fuel - 1, by omega⟩
    rw [categoryLoop_step backend self cat l body pg rs t hb hres hpg ht f offset res trace]
    cases Nat.eq_zero_or_pos n with
    | inl h0 =>
      subst h0
      have hc : t ≤ offset + l := by
        have h := hge
        push_cast at h
        omega
      rw [if_pos hc]
      simp [List.replicate_succ]
    | inr hpos =>
      have hc : ¬ (t ≤ offset + l) := by
        have h1 := hlt 1 (by omega)
        push_cast at h1
        omega
      rw [if_neg hc]
      have hge2 : t ≤ (offset + l) + l * (n : Int) := by
        have h := hge
        push_cast at h
        have he : offset + l * ((n : Int) + 1) = (offset + l) + l * (n : Int) := by ring
        rw [he] at h
        exact h
      have hlt2 : ∀ j : Nat, j < n → (offset + l) + l * (j : Int) < t := by
        intro j hj
        have h := hlt (j + 1) (by omega)
        push_cast at h
        have he : offset + l * ((j : Int) + 1) = (offset + l) + l * (j : Int) := by ring
        rw [he] at h
        exact h
      rw [ih hpos (offset + l) (res ++ rs) (trace ++ [reqCategory self cat l]) f
        (by omega) hge2 hlt2]
      simp [List.replicate_succ, List.flatten_cons]

/-- C1: for every endpoint and parameter map, `_make_api_request`
returns the decoded JSON body of the HTTP GET response exactly when the
response's status code is 200, and returns the null sentinel (`none`)
for every other status code. -/
theorem C1_make_api_request_200_iff (backend : Backend) (self : AccessAPI_ML)
    (endpoint : String) (params : List (String × Json)) :
    ((_make_api_request backend self endpoint params).2
        = some (backend (mkRequest self endpoint params)).json
      ↔ (backend (mkRequest self endpoint params)).status_code = 200)
    ∧ ((backend (mkRequest self endpoint params)).status_code ≠ 200 →
        (_make_api_request backend self endpoint params).2 = none) := by
  constructor
  · constructor
    · intro h
      by_contra hne
      simp [_make_api_request, apiResult, hne] at h
    · intro h
      simp [_make_api_request, apiResult, h]
  · intro h
    simp [_make_api_request, apiResult, h]

/-- Witness for C1 at a concrete 404 backend: the primitive returns the
null sentinel. -/
theorem C1_witness : (_make_api_request backend404 clientEx "orders/search" []).2 = none :=
  (C1_make_api_request_200_iff backend404 clientEx "orders/search" []).2 (by decide)

/-- C9: construction with a token-endpoint response lacking the
`access_token` field raises the lookup fault unhandled; with the field
present, the constructed client stores exactly that field's value as
its access token. -/
theorem C9_token_extraction (fields : List (String × Json)) (v : Json) :
    (alookup "access_token" fields = none →
      AccessAPI_ML.init (.obj fields) = .error (.keyError "access_token"))
    ∧ (alookup "access_token" fields = some v →
        ∃ c : AccessAPI_ML, AccessAPI_ML.init (.obj fields) = .ok c ∧ c.access_token = v) := by
  constructor
  · intro h
    simp [AccessAPI_ML.init, _get_access_token, Json.getKey, h]
  · intro h
    refine ⟨{ access_token := v
            , base_url := "https://api.mercadolibre.com/"
            , user_agent := "Mozilla/5.0 (Windows NT 10.0; Win64; x64) AppleWebKit/537.36 (KHTML, like Gecko) Chrome/117.0.0.0 Safari/537.36" }, ?_, rfl⟩
    simp [AccessAPI_ML.init, _get_access_token, Json.getKey, h]

/-- Witness for C9 at a concrete token response carrying a token. -/
theorem C9_witness :
    ∃ c : AccessAPI_ML,
      AccessAPI_ML.init (.obj [("access_token", .str "tok")]) = .ok c
        ∧ c.access_token = .str "tok" :=
  (C9_token_extraction [("access_token", .str "tok")] (.str "tok")).2 rfl

/-- C7: `get_vendas_by_range` targets `orders/search` and appends the
start-of-day suffix to `dt_ini` and the end-of-day suffix to `dt_fim`;
at the spec's example dates the request parameters are exactly the two
given ISO strings. -/
theorem C7_vendas_by_range_dates (backend : Backend) (self : AccessAPI_ML)
    (seller_id : Json) (dt_ini dt_fim : String) :
    (get_vendas_by_range backend self seller_id dt_ini dt_fim).1.url
        = self.base_url ++ "orders/search"
    ∧ alookup "order.date_created.from"
        (get_vendas_by_range backend self seller_id dt_ini dt_fim).1.params
        = some (.str (dt_ini ++ "T00:00:00.000-00:00"))
    ∧ alookup "order.date_created.to"
        (get_vendas_by_range backend self seller_id dt_ini dt_fim).1.params
        = some (.str (dt_fim ++ "T23:59:59.000-00:00"))
    ∧ alookup "order.date_created.from"
        (get_vendas_by_range backend self seller_id "2023-01-01" "2023-01-31").1.params
        = some (.str "2023-01-01T00:00:00.000-00:00")
    ∧ alookup "order.date_created.to"
        (get_vendas_by_range backend self seller_id "2023-01-01" "2023-01-31").1.params
        = some (.str "2023-01-31T23:59:59.000-00:00") :=
  ⟨rfl, rfl, rfl, rfl, rfl⟩

/-- C3: when the item-detail request succeeds with a JSON object, the
extraction returns the triple (start_time truncated to its first 10
characters, seller_id, sold_quantity) whenever the three fields are
present (start_time being a string), and raises the `KeyError` lookup
fault naming the first absent field when any of them is missing. -/
theorem C3_items_details (backend : Backend) (self : AccessAPI_ML) (id_produto : String)
    (fields : List (String × Json)) (s : String) (sid sq : Json)
    (hb : backend (mkRequest self ("items/" ++ id_produto) [])
        = { status_code := 200, json := .obj fields }) :
    (alookup "start_time" fields = some (.str s) →
      alookup "seller_id" fields = some sid →
      alookup "sold_quantity" fields = some sq →
      (get_items_details backend self id_produto).2 = .ok (.str (s.take 10), sid, sq))
    ∧ (alookup "start_time" fields = none →
        (get_items_details backend self id_produto).2 = .error (.keyError "start_time"))
    ∧ (alookup "start_time" fields = some (.str s) →
        alookup "seller_id" fields = none →
        (get_items_details backend self id_produto).2 = .error (.keyError "seller_id"))
    ∧ (alookup "start_time" fields = some (.str s) →
        alookup "seller_id" fields = some sid →
        alookup "sold_quantity" fields = none →
        (get_items_details backend self id_produto).2 = .error (.keyError "sold_quantity")) := by
  refine ⟨?_, ?_, ?_, ?_⟩
  · intro h1 h2 h3
    simp [get_items_details, hb, apiResult, pySubscript, Json.getKey, h1, h2, h3,
      pySlice10, bind, Except.bind]
  · intro h1
    simp [get_items_details, hb, apiResult, pySubscript, Json.getKey, h1,
      bind, Except.bind]
  · intro h1 h2
    simp [get_items_details, hb, apiResult, pySubscript, Json.getKey, h1, h2,
      pySlice10, bind, Except.bind]
  · intro h1 h2 h3
    simp [get_items_details, hb, apiResult, pySubscript, Json.getKey, h1, h2, h3,
      pySlice10, bind, Except.bind]

/-- Witness for C3 at the spec's worked example body. -/
theorem C3_witness :
    (get_items_details backendDetail clientEx "MLB123").2
      = .ok (.str "2023-05-01", .int 42, .int 7) :=
  (C3_items_details backendDetail clientEx "MLB123"
      [ ("start_time", .str "2023-05-01T10:00:00Z")
      , ("seller_id", .int 42)
      , ("sold_quantity", .int 7) ]
      "2023-05-01T10:00:00Z" (.int 42) (.int 7) rfl).1 rfl rfl rfl

/-- C5: whenever the first produtos request succeeds with a results
list and an integer paging.total, `get_produtos_paginacao` terminates
after exactly one page - its trace is that single request - and returns
exactly that first page's results, for every keyword, limit and total
(in particular when the limit is smaller than the total). -/
theorem C5_produtos_one_page (backend : Backend) (self : AccessAPI_ML)
    (q : Json) (l t : Int) (body pg : Json) (rs : List Json) (fuel : Nat)
    (hb : backend (reqProdutos self q l) = { status_code := 200, json := body })
    (hres : body.getKey "results" = .ok (.arr rs))
    (hpg : body.getKey "paging" = .ok pg)
    (ht : pg.getKey "total" = .ok (.int t))
    (hfuel : 1 ≤ fuel) :
    get_produtos_paginacao backend self q l fuel = .ok [reqProdutos self q l] rs := by
  obtain ⟨f, rfl⟩ : ∃ f, fuel = f + 1 := ⟨fuel - 1, by omega⟩
  have hb2 : apiResult (backend (reqProdutos self q l)) = some body := by
    rw [hb]; rfl
  simp only [get_produtos_paginacao]
  rw [produtosLoop_success backend self q l body pg rs t hb2 hres hpg ht]
  simp

/-- Witness for C5: a first page of two results with reported total
500 and limit 50; the method still stops after one page. -/
theorem C5_witness :
    get_produtos_paginacao backend200tot500 clientEx (.str "carro") 50 3
      = .ok [reqProdutos clientEx (.str "carro") 50] [.str "a", .str "b"] :=
  C5_produtos_one_page backend200tot500 clientEx (.str "carro") 50 500 pageBody500
    (.obj [("total", .int 500)]) [.str "a", .str "b"] 3 rfl rfl rfl rfl (by decide)

/-- C10: when every request fails, `get_produtos_paginacao` never
terminates - at every fuel it is still running, having re-issued the
same request once per iteration - while `get_items_by_category_paging`
terminates immediately, returning the empty list. -/
theorem C10_fail_divergence_vs_empty (backend : Backend) (self : AccessAPI_ML)
    (q cat : Json) (l : Int)
    (hfail : ∀ r, (backend r).status_code ≠ 200) :
    (∀ fuel : Nat, get_produtos_paginacao backend self q l fuel
        = .timeout (List.replicate fuel (reqProdutos self q l)))
    ∧ (∀ fuel : Nat, get_items_by_category_paging backend self cat l (fuel + 1)
        = .ok [reqCategory self cat l] []) := by
  constructor
  · intro fuel
    have h := produtosLoop_fail backend self q l
      (apiResult_of_ne _ (hfail _)) fuel 0 [] []
    simpa [get_produtos_paginacao] using h
  · intro fuel
    have h := categoryLoop_fail backend self cat l
      (apiResult_of_ne _ (hfail _)) fuel 0 [] []
    simpa [get_items_by_category_paging] using h

/-- Witness for C10 at a concrete 404 backend. -/
theorem C10_witness :
    get_produtos_paginacao backend404 clientEx (.str "carro") 50 3
        = .timeout (List.replicate 3 (reqProdutos clientEx (.str "carro") 50))
    ∧ get_items_by_category_paging backend404 clientEx (.str "MLB1055") 50 1
        = .ok [reqCategory clientEx (.str "MLB1055") 50] [] := by
  have h := C10_fail_divergence_vs_empty backend404 clientEx
    (.str "carro") (.str "MLB1055") 50 (fun r => (by decide : (404 : Int) ≠ 200))
  exact ⟨h.1 3, h.2 0⟩

/-- C4: every HTTP request issued by either paginated method carries
the parameter `offset` with value 0: the loops rebuild the same
parameter map each iteration, and the incremented internal offset
variable is never substituted into it. -/
theorem C4_offset_always_zero (backend : Backend) (self : AccessAPI_ML)
    (q cat : Json) (l : Int) (fuelP fuelC : Nat) (r : HttpRequest) :
    (r ∈ (get_produtos_paginacao backend self q l fuelP).trace →
      alookup "offset" r.params = some (.int 0))
    ∧ (r ∈ (get_items_by_category_paging backend self cat l fuelC).trace →
      alookup "offset" r.params = some (.int 0)) := by
  constructor
  · intro hr
    obtain ⟨m, hm⟩ := produtosLoop_trace_shape backend self q l fuelP 0 [] []
    simp only [get_produtos_paginacao] at hr
    rw [hm] at hr
    simp only [List.nil_append] at hr
    have he := List.eq_of_mem_replicate hr
    subst he
    rfl
  · intro hr
    obtain ⟨m, hm⟩ := categoryLoop_trace_shape backend self cat l fuelC 0 [] []
    simp only [get_items_by_category_paging] at hr
    rw [hm] at hr
    simp only [List.nil_append] at hr
    have he := List.eq_of_mem_replicate hr
    subst he
    rfl

/-- Witness for C4: the request of a concrete produtos run carries
offset 0. -/
theorem C4_witness :
    alookup "offset" (reqProdutos clientEx (.str "carro") 50).params = some (.int 0) := by
  refine (C4_offset_always_zero backend404 clientEx (.str "carro") (.str "MLB1055") 50 1 1
    (reqProdutos clientEx (.str "carro") 50)).1 ?_
  have he : (get_produtos_paginacao backend404 clientEx (.str "carro") 50 1).trace
      = [reqProdutos clientEx (.str "carro") 50] := rfl
  rw [he]
  exact List.mem_singleton.mpr rfl

/-- C8: every outbound request of every query method carries the
client's stored access token in its `Authorization` header, together
with the fixed user agent; and the source never assigns to `self`
outside `__init__`, so the embedded instance (access_token, base_url,
user_agent) is immutable by construction and shared unchanged by all
query calls. -/
theorem C8_authorization_invariant (backend : Backend) (self : AccessAPI_ML)
    (sid q cat dias ending : Json) (idp : String) (d1 d2 : String)
    (l : Int) (fuelP fuelC : Nat) (r : HttpRequest) :
    alookup "Authorization" (get_vendas backend self sid).1.headers = some self.access_token
    ∧ alookup "Authorization" (get_vendas_by_range backend self sid d1 d2).1.headers
        = some self.access_token
    ∧ alookup "Authorization" (get_produtos backend self q).1.headers = some self.access_token
    ∧ alookup "Authorization" (get_items_details backend self idp).1.headers
        = some self.access_token
    ∧ alookup "Authorization" (get_items_by_seller backend self sid).1.headers
        = some self.access_token
    ∧ alookup "Authorization" (get_all_categories backend self).1.headers
        = some self.access_token
    ∧ alookup "Authorization" (get_items_by_category backend self cat).1.headers
        = some self.access_token
    ∧ alookup "Authorization" (get_items_by_seller_category backend self sid cat).1.headers
        = some self.access_token
    ∧ alookup "Authorization" (get_visits_by_items backend self idp dias ending).1.headers
        = some self.access_token
    ∧ alookup "Authorization" (get_selled_items_by_seller backend self sid).1.headers
        = some self.access_token
    ∧ (r ∈ (get_produtos_paginacao backend self q l fuelP).trace →
        alookup "Authorization" r.headers = some self.access_token)
    ∧ (r ∈ (get_items_by_category_paging backend self cat l fuelC).trace →
        alookup "Authorization" r.headers = some self.access_token) := by
  refine ⟨rfl, rfl, rfl, rfl, rfl, rfl, rfl, rfl, rfl, rfl, ?_, ?_⟩
  · intro hr
    obtain ⟨m, hm⟩ := produtosLoop_trace_shape backend self q l fuelP 0 [] []
    simp only [get_produtos_paginacao] at hr
    rw [hm] at hr
    simp only [List.nil_append] at hr
    have he := List.eq_of_mem_replicate hr
    subst he
    rfl
  · intro hr
    obtain ⟨m, hm⟩ := categoryLoop_trace_shape backend self cat l fuelC 0 [] []
    simp only [get_items_by_category_paging] at hr
    rw [hm] at hr
    simp only [List.nil_append] at hr
    have he := List.eq_of_mem_replicate hr
    subst he
    rfl

/-- Witness for C8: the request of a concrete category-paging run
carries the client's token in its Authorization header. -/
theorem C8_witness :
    alookup "Authorization" (reqCategory clientEx (.str "MLB1055") 50).headers
      = some clientEx.access_token := by
  have h := C8_authorization_invariant backend404 clientEx (.int 1) (.str "carro")
    (.str "MLB1055") (.int 7) (.str "2023-01-01") "MLB123" "2023-01-01" "2023-01-31"
    50 1 1 (reqCategory clientEx (.str "MLB1055") 50)
  refine h.2.2.2.2.2.2.2.2.2.2.2 ?_
  have he : (get_items_by_category_paging backend404 clientEx (.str "MLB1055") 50 1).trace
      = [reqCategory clientEx (.str "MLB1055") 50] := rfl
  rw [he]
  exact List.mem_singleton.mpr rfl

/-- C2 counterexample: with a mock endpoint answering 404 to every
request, `get_items_by_category_paging` returns the empty list - in
Python a value distinct from the null sentinel (`[] is not None`) - and
`get_items_details` raises an unhandled `TypeError` from subscripting
`None`; neither query method returns the null sentinel to its caller,
contrary to the claim that all query methods propagate the null. -/
theorem C2_counterexample :
    get_items_by_category_paging backend404 clientEx (.str "MLB1055") 50 3
        = .ok [reqCategory clientEx (.str "MLB1055") 50] []
    ∧ (get_items_details backend404 clientEx "MLB123").2 = .error .typeError :=
  ⟨rfl, rfl⟩

/-- C2 (amended): when the request primitive returns the null sentinel
(the mocked endpoint answers every request with a non-200 status), the
nine single-request query methods propagate the null to their callers;
of the remaining query methods, `get_items_details` raises an unhandled
`TypeError`, `get_produtos_paginacao` never returns, and
`get_items_by_category_paging` returns the empty list. -/
theorem C2_null_propagation (backend : Backend) (self : AccessAPI_ML)
    (sid q cat dias ending : Json) (idp : String) (d1 d2 : String) (l : Int)
    (hfail : ∀ r, (backend r).status_code ≠ 200) :
    (get_vendas backend self sid).2 = none
    ∧ (get_vendas_by_range backend self sid d1 d2).2 = none
    ∧ (get_produtos backend self q).2 = none
    ∧ (get_items_by_seller backend self sid).2 = none
    ∧ (get_all_categories backend self).2 = none
    ∧ (get_items_by_category backend self cat).2 = none
    ∧ (get_items_by_seller_category backend self sid cat).2 = none
    ∧ (get_visits_by_items backend self idp dias ending).2 = none
    ∧ (get_selled_items_by_seller backend self sid).2 = none
    ∧ (get_items_details backend self idp).2 = .error .typeError
    ∧ (∀ fuel, get_produtos_paginacao backend self q l fuel
        = .timeout (List.replicate fuel (reqProdutos self q l)))
    ∧ (∀ fuel, get_items_by_category_paging backend self cat l (fuel + 1)
        = .ok [reqCategory self cat l] []) := by
  refine ⟨?_, ?_, ?_, ?_, ?_, ?_, ?_, ?_, ?_, ?_, ?_, ?_⟩
  · simp [get_vendas, _make_api_request, apiResult_of_ne _ (hfail _)]
  · simp [get_vendas_by_range, _make_api_request, apiResult_of_ne _ (hfail _)]
  · simp [get_produtos, _make_api_request, apiResult_of_ne _ (hfail _)]
  · simp [get_items_by_seller, _make_api_request, apiResult_of_ne _ (hfail _)]
  · simp [get_all_categories, _make_api_request, apiResult_of_ne _ (hfail _)]
  · simp [get_items_by_category, _make_api_request, apiResult_of_ne _ (hfail _)]
  · simp [get_items_by_seller_category, _make_api_request, apiResult_of_ne _ (hfail _)]
  · simp [get_visits_by_items, _make_api_request, apiResult_of_ne _ (hfail _)]
  · simp [get_selled_items_by_seller, _make_api_request, apiResult_of_ne _ (hfail _)]
  · simp [get_items_details, apiResult_of_ne _ (hfail _), pySubscript, bind, Except.bind]
  · intro fuel
    have h := produtosLoop_fail backend self q l
      (apiResult_of_ne _ (hfail _)) fuel 0 [] []
    simpa [get_produtos_paginacao] using h
  · intro fuel
    have h := categoryLoop_fail backend self cat l
      (apiResult_of_ne _ (hfail _)) fuel 0 [] []
    simpa [get_items_by_category_paging] using h

/-- Witness for the amended C2 at a concrete 404 backend: a thin
query method propagates the null sentinel. -/
theorem C2_witness : (get_vendas backend404 clientEx (.int 1)).2 = none := by
  have h := C2_null_propagation backend404 clientEx (.int 1) (.str "carro")
    (.str "MLB1055") (.int 7) (.str "2023-01-01") "MLB123" "2023-01-01" "2023-01-31"
    50 (fun r => (by decide : (404 : Int) ≠ 200))
  exact h.1

/-- C6 counterexample: the claim quantifies over every limit, but at
limit = 0 (category "MLB1055", constant successful backend with one
result and total 1) the loop never reaches the positive total - the
offset stays 0 - so the run is still going after 5 iterations, each
re-requesting offset 0, instead of terminating after
ceiling(total/limit) iterations as claimed. -/
theorem C6_counterexample :
    get_items_by_category_paging backend200 clientEx (.str "MLB1055") 0 5
      = .timeout (List.replicate 5 (reqCategory clientEx (.str "MLB1055") 0)) :=
  rfl

/-- C6 (amended): for every category and every positive limit, under a
backend answering every request with the same successful response
holding a fixed results page and a fixed positive paging.total,
`get_items_by_category_paging` terminates after exactly
ceiling(total/limit) iterations - its trace is that many copies of the
offset-0 request - and returns the first page's results repeated that
many times; and from any loop state it terminates, returning the
results accumulated so far, as soon as a request fails. -/
theorem C6_category_paging_iterations (backend : Backend) (self : AccessAPI_ML)
    (cat : Json) (l t : Int) (body pg : Json) (rs : List Json) (fuel : Nat)
    (hl : 0 < l) (ht0 : 0 < t)
    (hb : ∀ r, backend r = { status_code := 200, json := body })
    (hres : body.getKey "results" = .ok (.arr rs))
    (hpg : body.getKey "paging" = .ok pg)
    (ht : pg.getKey "total" = .ok (.int t))
    (hfuel : (t.toNat + l.toNat - 1) / l.toNat ≤ fuel) :
    get_items_by_category_paging backend self cat l fuel
      = .ok (List.replicate ((t.toNat + l.toNat - 1) / l.toNat) (reqCategory self cat l))
          ((List.replicate ((t.toNat + l.toNat - 1) / l.toNat) rs).flatten)
    ∧ (∀ (backend2 : Backend) (offset : Int) (res : List Json)
          (trace : List HttpRequest) (fuel2 : Nat),
        (backend2 (reqCategory self cat l)).status_code ≠ 200 →
        categoryLoop backend2 self cat l (fuel2 + 1) offset res trace
          = .ok (trace ++ [reqCategory self cat l]) res) := by
  constructor
  · have hb2 : apiResult (backend (reqCategory self cat l)) = some body := by
      rw [hb]; rfl
    have hLpos : 0 < l.toNat := by omega
    have hTpos : 0 < t.toNat := by omega
    have hcastl : ((l.toNat : Int)) = l := Int.toNat_of_nonneg (le_of_lt hl)
    have hcastt : ((t.toNat : Int)) = t := Int.toNat_of_nonneg (le_of_lt ht0)
    have hK0 : 0 < (t.toNat + l.toNat - 1) / l.toNat :=
      (Nat.le_div_iff_mul_le hLpos).mpr (by omega)
    have hge : t ≤ 0 + l * (((t.toNat + l.toNat - 1) / l.toNat : Nat) : Int) := by
      have h := ceil_mul_ge t.toNat l.toNat hTpos hLpos
      have h2 : ((t.toNat : Nat) : Int)
          ≤ (((l.toNat * ((t.toNat + l.toNat - 1) / l.toNat)) : Nat) : Int) :=
        Nat.cast_le.mpr h
      rw [Nat.cast_mul, hcastl, hcastt] at h2
      linarith
    have hlt : ∀ j : Nat, j < (t.toNat + l.toNat - 1) / l.toNat →
        (0 : Int) + l * (j : Int) < t := by
      intro j hj
      have h := ceil_mul_lt t.toNat l.toNat j hTpos hLpos hj
      have h2 : (((l.toNat * j) : Nat) : Int) < ((t.toNat : Nat) : Int) :=
        Nat.cast_lt.mpr h
      rw [Nat.cast_mul, hcastl, hcastt] at h2
      linarith
    have hrun := categoryLoop_run backend self cat l t body pg rs hb2 hres hpg ht
      ((t.toNat + l.toNat - 1) / l.toNat) hK0 0 [] [] fuel hfuel hge hlt
    simpa [get_items_by_category_paging] using hrun
  · intro backend2 offset res trace fuel2 h
    exact categoryLoop_fail backend2 self cat l (apiResult_of_ne _ h) fuel2 offset res trace

/-- Witness for the amended C6: two results per page, total 5, limit 2:
the method runs ceiling(5/2) = 3 iterations and returns the first page
three times over. -/
theorem C6_witness :
    get_items_by_category_paging backend200tot5 clientEx (.str "MLB1055") 2 3
      = .ok (List.replicate 3 (reqCategory clientEx (.str "MLB1055") 2))
          [.str "a", .str "b", .str "a", .str "b", .str "a", .str "b"] := by
  have h := C6_category_paging_iterations backend200tot5 clientEx (.str "MLB1055") 2 5
    pageBody5 (.obj [("total", .int 5)]) [.str "a", .str "b"] 3 (by decide) (by decide)
    (fun r => rfl) rfl rfl rfl (by decide)
  exact h.1
